import Mathlib

/-
Shallow embedding of scripts/test-webhook.py (openhamprep).

Conventions of the embedding:
- Pure helpers of the script become Lean functions with the same names where
  Lean permits (compute_signature, send_webhook, run_tests, main, tests,
  WEBHOOK_SECRET, FUNCTION_URL, SEEDED_TOPICS).
- Python library primitives the script calls are modelled concretely:
  hashlib.sha256 and hmac.new as executable FIPS-180-4 SHA-256 and RFC 2104
  HMAC over byte lists (validated below against the standard test vectors),
  str.encode as UTF-8 byte encoding, json.dumps as the default-separator,
  ensure_ascii serializer over an ordered JSON value type, str.lower on the
  ASCII fragment the tests exercise, and the in operator as substring search.
- The network is an oracle of type Request -> NetOutcome: for the one request
  the script posts it yields either an HTTP response (whose text is empty,
  parses as JSON, or fails to parse, the three cases response.json
  distinguishes), a ConnectionError, or any other exception with its string
  representation. send_webhook additionally records the list of requests it
  attempted, so single-attempt behaviour is provable.
- Machine words of SHA-256 are Nat with explicit mod 2^32; bytes are Nat
  below 256 by construction.
-/

set_option maxRecDepth 4096

namespace OpenHamPrep

/-- Truncate a natural number to 32 bits, modelling Python/C 32-bit word arithmetic. -/
def w32 (n : Nat) : Nat := n % 4294967296

/-- Right rotation of a 32-bit word. -/
def rotr (x n : Nat) : Nat := w32 ((x >>> n) ||| (x <<< (32 - n)))

/-- Bitwise complement of a 32-bit word. -/
def compl32 (x : Nat) : Nat := x ^^^ 4294967295

/-- SHA-256 Ch function. -/
def shaCh (x y z : Nat) : Nat := (x &&& y) ^^^ (compl32 x &&& z)

/-- SHA-256 Maj function. -/
def shaMaj (x y z : Nat) : Nat := (x &&& y) ^^^ (x &&& z) ^^^ (y &&& z)

/-- SHA-256 big Sigma0. -/
def bigSigma0 (x : Nat) : Nat := rotr x 2 ^^^ rotr x 13 ^^^ rotr x 22

/-- SHA-256 big Sigma1. -/
def bigSigma1 (x : Nat) : Nat := rotr x 6 ^^^ rotr x 11 ^^^ rotr x 25

/-- SHA-256 small sigma0. -/
def smallSigma0 (x : Nat) : Nat := rotr x 7 ^^^ rotr x 18 ^^^ (x >>> 3)

/-- SHA-256 small sigma1. -/
def smallSigma1 (x : Nat) : Nat := rotr x 17 ^^^ rotr x 19 ^^^ (x >>> 10)

/-- The 64 SHA-256 round constants. -/
def K256 : List Nat :=
  [1116352408, 1899447441, 3049323471, 3921009573, 961987163, 1508970993,
   2453635748, 2870763221, 3624381080, 310598401, 607225278, 1426881987,
   1925078388, 2162078206, 2614888103, 3248222580, 3835390401, 4022224774,
   264347078, 604807628, 770255983, 1249150122, 1555081692, 1996064986,
   2554220882, 2821834349, 2952996808, 3210313671, 3336571891, 3584528711,
   113926993, 338241895, 666307205, 773529912, 1294757372, 1396182291,
   1695183700, 1986661051, 2177026350, 2456956037, 2730485921, 2820302411,
   3259730800, 3345764771, 3516065817, 3600352804, 4094571909, 275423344,
   430227734, 506948616, 659060556, 883997877, 958139571, 1322822218,
   1537002063, 1747873779, 1955562222, 2024104815, 2227730452, 2361852424,
   2428436474, 2756734187, 3204031479, 3329325298]

/-- The SHA-256 working state: eight 32-bit words. -/
structure Sha256State where
  a : Nat
  b : Nat
  c : Nat
  d : Nat
  e : Nat
  f : Nat
  g : Nat
  h : Nat

/-- The SHA-256 initial hash value. -/
def sha256Init : Sha256State :=
  ⟨1779033703, 3144134277, 1013904242, 2773480762,
   1359893119, 2600822924, 528734635, 1541459225⟩

/-- Append the 0x80 byte, zero padding and the 64-bit big-endian bit length,
so that the result has a length that is a multiple of 64 bytes. -/
def padMessage (msg : List Nat) : List Nat :=
  let L := msg.length
  let z := (119 - L % 64) % 64
  let bits := 8 * L
  msg ++ [128] ++ List.replicate z 0 ++
    [bits / 72057594037927936 % 256, bits / 281474976710656 % 256,
     bits / 1099511627776 % 256, bits / 4294967296 % 256,
     bits / 16777216 % 256, bits / 65536 % 256, bits / 256 % 256, bits % 256]

/-- Fuel-driven worker for chunksOf; the fuel bounds the number of chunks. -/
def chunksOfAux (k : Nat) : Nat → List Nat → List (List Nat)
  | _, [] => []
  | 0, _ => []
  | fuel + 1, l => l.take k :: chunksOfAux k fuel (l.drop k)

/-- Split a list into consecutive chunks of size k (for positive k). -/
def chunksOf (k : Nat) (l : List Nat) : List (List Nat) := chunksOfAux k l.length l

/-- Big-endian interpretation of a byte list as one word. -/
def bytesToWord (bs : List Nat) : Nat := bs.foldl (fun acc b => acc * 256 + b) 0

/-- The sixteen 32-bit words of a 64-byte block. -/
def blockWords (block : List Nat) : List Nat := (chunksOf 4 block).map bytesToWord

/-- One step of the message-schedule extension: append the next word. -/
def scheduleStep (ws : List Nat) : List Nat :=
  ws ++ [w32 (smallSigma1 (ws.getD (ws.length - 2) 0) + ws.getD (ws.length - 7) 0 +
              smallSigma0 (ws.getD (ws.length - 15) 0) + ws.getD (ws.length - 16) 0)]

/-- The full 64-word message schedule of a block. -/
def fullSchedule (block : List Nat) : List Nat := Nat.repeat scheduleStep 48 (blockWords block)

/-- One SHA-256 round, consuming a (round constant, schedule word) pair. -/
def roundStep (st : Sha256State) (kw : Nat × Nat) : Sha256State :=
  let t1 := w32 (st.h + bigSigma1 st.e + shaCh st.e st.f st.g + kw.1 + kw.2)
  let t2 := w32 (bigSigma0 st.a + shaMaj st.a st.b st.c)
  ⟨w32 (t1 + t2), st.a, st.b, st.c, w32 (st.d + t1), st.e, st.f, st.g⟩

/-- Process one 64-byte block: 64 rounds, then add the result to the incoming state. -/
def processBlock (st : Sha256State) (block : List Nat) : Sha256State :=
  let fin := (K256.zip (fullSchedule block)).foldl roundStep st
  ⟨w32 (st.a + fin.a), w32 (st.b + fin.b), w32 (st.c + fin.c), w32 (st.d + fin.d),
   w32 (st.e + fin.e), w32 (st.f + fin.f), w32 (st.g + fin.g), w32 (st.h + fin.h)⟩

/-- The four big-endian bytes of a 32-bit word. -/
def wordBytes (w : Nat) : List Nat :=
  [w / 16777216 % 256, w / 65536 % 256, w / 256 % 256, w % 256]

/-- SHA-256 of a byte list, as the 32-byte digest. -/
def sha256Bytes (msg : List Nat) : List Nat :=
  let st := (chunksOf 64 (padMessage msg)).foldl processBlock sha256Init
  wordBytes st.a ++ wordBytes st.b ++ wordBytes st.c ++ wordBytes st.d ++
  wordBytes st.e ++ wordBytes st.f ++ wordBytes st.g ++ wordBytes st.h

/-- HMAC-SHA256 (RFC 2104) over byte lists, modelling Python hmac.new(key, msg, sha256). -/
def hmacSha256 (key msg : List Nat) : List Nat :=
  let k0 := if 64 < key.length then sha256Bytes key else key
  let kp := k0 ++ List.replicate (64 - k0.length) 0
  sha256Bytes ((kp.map (fun b => b ^^^ 92)) ++ sha256Bytes ((kp.map (fun b => b ^^^ 54)) ++ msg))

/-- The sixteen lowercase hexadecimal digit characters. -/
def hexCharList : List Char := "0123456789abcdef".data

/-- The lowercase hexadecimal digit of n mod 16. -/
def hexDigit (n : Nat) : Char := hexCharList.getD (n % 16) '0'

/-- The two hexadecimal characters of a byte (Python %02x for bytes below 256). -/
def byteHexChars (b : Nat) : List Char := [hexDigit (b / 16), hexDigit b]

/-- Lowercase hexadecimal encoding of a byte list, modelling hexdigest(). -/
def hexString (bs : List Nat) : String := ⟨bs.flatMap byteHexChars⟩

/-- UTF-8 encoding of one Unicode code point. -/
def utf8Bytes (c : Nat) : List Nat :=
  if c < 128 then [c]
  else if c < 2048 then [192 + c / 64, 128 + c % 64]
  else if c < 65536 then [224 + c / 4096, 128 + c / 64 % 64, 128 + c % 64]
  else [240 + c / 262144, 128 + c / 4096 % 64, 128 + c / 64 % 64, 128 + c % 64]

/-- UTF-8 bytes of a string, modelling str.encode in Python. -/
def strBytes (s : String) : List Nat := s.data.flatMap (fun c => utf8Bytes c.toNat)

/-- The shared signing secret of the script (module constant WEBHOOK_SECRET). -/
def WEBHOOK_SECRET : String := "test-secret-for-local-dev"

/-- compute_signature from the script: HMAC-SHA256 of the payload keyed by the
secret, hex encoded and prefixed with sha256=. -/
def compute_signature (payload : String) (secret : String) : String :=
  "sha256=" ++ hexString (hmacSha256 (strBytes secret) (strBytes payload))

/-- JSON values of the shapes the script builds and receives: integers,
strings and objects with ordered fields. -/
inductive JVal where
  | jnum (n : Int)
  | jstr (s : String)
  | jobj (fields : List (String × JVal))

/-- Four lowercase hexadecimal digits of n mod 65536. -/
def hex4 (n : Nat) : String :=
  ⟨[hexDigit (n / 4096), hexDigit (n / 256), hexDigit (n / 16), hexDigit n]⟩

/-- Escape one code point the way json.dumps with ensure_ascii=True does. -/
def pyEscChar (c : Nat) : String :=
  if c = 34 then "\\\""
  else if c = 92 then "\\\\"
  else if c = 8 then "\\b"
  else if c = 9 then "\\t"
  else if c = 10 then "\\n"
  else if c = 12 then "\\f"
  else if c = 13 then "\\r"
  else if c < 32 then "\\u" ++ hex4 c
  else if c < 127 then String.singleton (Char.ofNat c)
  else if c < 65536 then "\\u" ++ hex4 c
  else "\\u" ++ hex4 (55296 + (c - 65536) / 1024) ++ "\\u" ++ hex4 (56320 + (c - 65536) % 1024)

/-- A JSON string literal as json.dumps writes it. -/
def pyQuote (s : String) : String :=
  "\"" ++ String.join (s.data.map (fun c => pyEscChar c.toNat)) ++ "\""

mutual

/-- Serialize a JSON value exactly as json.dumps with default separators does. -/
def dumpJVal : JVal → String
  | JVal.jnum n => toString n
  | JVal.jstr s => pyQuote s
  | JVal.jobj fields => "\x7b" ++ dumpFields fields ++ "\x7d"

/-- Serialize the comma-separated field list of a JSON object. -/
def dumpFields : List (String × JVal) → String
  | [] => ""
  | [(k, v)] => pyQuote k ++ ": " ++ dumpJVal v
  | (k, v) :: rest => pyQuote k ++ ": " ++ dumpJVal v ++ ", " ++ dumpFields rest

end

/-- The fixed URL of the local function endpoint (module constant FUNCTION_URL). -/
def FUNCTION_URL : String := "http://localhost:54321/functions/v1/discourse-webhook"

/-- The seeded topic-id-to-question-id table (module constant SEEDED_TOPICS). -/
def SEEDED_TOPICS : List (Int × String) := [(1, "T1A01"), (2, "T1A02"), (3, "T1A03")]

/-- The fixed part of the templated Markdown document before the explanation. -/
def rawTemplateHead : String :=
  "## Question\nWhich of the following is part of the Basis and Purpose of the Amateur Radio Service?\n\n## Answer Options\n- **A)** Option A\n- **B)** Option B\n- **C)** Option C\n- **D)** Option D\n\n**Correct Answer: C**\n\n---\n\n## Explanation\n"

/-- The fixed part of the templated Markdown document after the explanation. -/
def rawTemplateTail : String :=
  "\n\n---\n_This topic was automatically created to facilitate community discussion._"

/-- raw_content from send_webhook: the Markdown template with the explanation
substituted into the Explanation section. -/
def rawContent (explanation : String) : String :=
  rawTemplateHead ++ explanation ++ rawTemplateTail

/-- The payload dict that send_webhook builds, with its fields in insertion order. -/
def buildPayload (explanation : String) (topic_id post_number : Int) : JVal :=
  JVal.jobj [("post", JVal.jobj
    [("id", JVal.jnum 100),
     ("topic_id", JVal.jnum topic_id),
     ("post_number", JVal.jnum post_number),
     ("raw", JVal.jstr (rawContent explanation)),
     ("cooked", JVal.jstr "<p>HTML content</p>"),
     ("username", JVal.jstr "test_user"),
     ("created_at", JVal.jstr "2024-01-01T00:00:00Z"),
     ("updated_at", JVal.jstr "2024-01-02T00:00:00Z")])]

/-- Python truthiness of the expression custom_signature or fallback:
None and the empty string both fall back. -/
def pyOrStr (a : Option String) (fallback : String) : String :=
  match a with
  | none => fallback
  | some s => if s = "" then fallback else s

/-- The HTTP POST request that requests.post is invoked with. -/
structure Request where
  url : String
  headers : List (String × String)
  body : String
  timeout : Nat
deriving DecidableEq

/-- The request built inside send_webhook before the POST is attempted. -/
def buildRequest (explanation : String) (topic_id post_number : Int)
    (event_type event_name : String) (custom_signature : Option String) : Request :=
  let body := dumpJVal (buildPayload explanation topic_id post_number)
  let signature := pyOrStr custom_signature (compute_signature body WEBHOOK_SECRET)
  { url := FUNCTION_URL,
    headers :=
      [("Content-Type", "application/json"),
       ("X-Discourse-Event-Type", event_type),
       ("X-Discourse-Event", event_name),
       ("X-Discourse-Event-Signature", signature),
       ("X-Discourse-Instance", "https://forum.openhamprep.com")],
    body := body,
    timeout := 30 }

/-- The text of an HTTP response as the script consumes it: empty, a nonempty
body that parses as JSON, or a nonempty body whose JSON parse raises with the
given message. -/
inductive HttpText where
  | empty
  | jsonText (j : JVal)
  | invalidJson (msg : String)

/-- The outcome the transport produces for one POST attempt: an HTTP response,
a ConnectionError, or any other exception with the given string representation. -/
inductive NetOutcome where
  | response (status : Int) (text : HttpText)
  | connectionError
  | otherException (msg : String)

/-- The dict send_webhook returns: an HTTP status (0 on transport failure) and
a JSON body. -/
structure WebhookResult where
  status : Int
  body : JVal

/-- The body returned on a caught exception. -/
def errorBody (msg : String) : JVal := JVal.jobj [("error", JVal.jstr msg)]

/-- The result of send_webhook together with the list of POST requests it
attempted (instrumentation of the single requests.post call). -/
structure SendResult where
  result : WebhookResult
  posted : List Request

/-- The try/except block of send_webhook applied to one transport outcome. -/
def handleOutcome (req : Request) (o : NetOutcome) : SendResult :=
  match o with
  | NetOutcome.response code HttpText.empty => ⟨⟨code, JVal.jobj []⟩, [req]⟩
  | NetOutcome.response code (HttpText.jsonText j) => ⟨⟨code, j⟩, [req]⟩
  | NetOutcome.response _ (HttpText.invalidJson msg) => ⟨⟨0, errorBody msg⟩, [req]⟩
  | NetOutcome.connectionError =>
      ⟨⟨0, errorBody "Cannot connect. Is Supabase running? Try: npm run supabase:functions"⟩, [req]⟩
  | NetOutcome.otherException msg => ⟨⟨0, errorBody msg⟩, [req]⟩

/-- send_webhook from the script: build the request, POST it once through the
transport oracle net, and normalize the outcome. -/
def send_webhook (net : Request → NetOutcome) (explanation : String)
    (topic_id post_number : Int) (event_type event_name : String)
    (custom_signature : Option String) : SendResult :=
  let req := buildRequest explanation topic_id post_number event_type event_name custom_signature
  handleOutcome req (net req)

/-- One row of the fixed test table: the send_webhook arguments its closure
binds, the expected status, and the optional expected substring. -/
structure Scenario where
  name : String
  explanation : String
  topic_id : Int
  post_number : Int
  event_type : String
  event_name : String
  custom_signature : Option String
  expected_status : Int
  expected_contains : Option String
deriving DecidableEq

/-- The fixed test table of run_tests, in source order. -/
def tests : List Scenario :=
  [⟨"Invalid signature rejected", "test", 1, 1, "post", "post_edited",
      some "sha256=invalid", 401, some "Invalid"⟩,
   ⟨"Non-post event ignored", "test", 1, 1, "topic", "post_edited", none, 200, some "ignored"⟩,
   ⟨"post_created ignored", "test", 1, 1, "post", "post_created", none, 200, some "ignored"⟩,
   ⟨"Reply post ignored", "test", 1, 2, "post", "post_edited", none, 200, some "ignored"⟩,
   ⟨"Valid update to T1A01", "UPDATED: This is a new test explanation from the webhook!",
      1, 1, "post", "post_edited", none, 200, none⟩,
   ⟨"Valid update to T1A02", "T1A02 updated explanation!", 2, 1, "post", "post_edited",
      none, 200, none⟩]

/-- Invoke the closure of one scenario. -/
def runScenario (net : Request → NetOutcome) (s : Scenario) : SendResult :=
  send_webhook net s.explanation s.topic_id s.post_number s.event_type s.event_name
    s.custom_signature

/-- Lowercase an ASCII letter, modelling str.lower on the ASCII fragment. -/
def asciiLowerChar (c : Char) : Char :=
  if 'A' ≤ c ∧ c ≤ 'Z' then Char.ofNat (c.toNat + 32) else c

/-- Lowercase a string, modelling str.lower on the ASCII fragment. -/
def asciiLower (s : String) : String := ⟨s.data.map asciiLowerChar⟩

/-- Python substring containment (needle in haystack). -/
def strContains (hay needle : String) : Bool :=
  (List.range (hay.data.length + 1)).any
    (fun i => ((hay.data.drop i).take needle.data.length) == needle.data)

/-- The pass check of one scenario: exact status match and, when an expected
substring is given, case-insensitive containment in the serialized body. -/
def scenarioPasses (net : Request → NetOutcome) (s : Scenario) : Bool :=
  let result := (runScenario net s).result
  let body_str := dumpJVal result.body
  let status_ok := result.status == s.expected_status
  let content_ok :=
    match s.expected_contains with
    | none => true
    | some sub => strContains (asciiLower body_str) (asciiLower sub)
  status_ok && content_ok

/-- run_tests from the script: count the passing scenarios and report whether
all of them passed. -/
def run_tests (net : Request → NetOutcome) : Bool :=
  ((tests.map (scenarioPasses net)).count true) == tests.length

/-- The parsed command-line arguments of the script. -/
structure Args where
  explanation : Option String
  topic : Int
  reply : Bool
  test : Bool
  verbose : Bool

/-- Python dict.get with a default, over the association-list model. -/
def pyDictGet (m : List (Int × String)) (k : Int) (default : String) : String :=
  (m.lookup k).getD default

/-- The observable outcome of one invocation of main: the process exit code,
every POST request attempted, and the question identifier displayed on the
single-send path. -/
structure MainResult where
  exitCode : Nat
  posted : List Request
  displayedQuestionId : Option String

/-- main from the script: the test mode, the help path, and the single-send
path. The help guard models the Python truthiness test
(if not args.explanation), which fires on a missing argument and on the empty
string alike, so an empty explanation also prints help and exits 1 with no
network call. -/
def main (net : Request → NetOutcome) (args : Args) : MainResult :=
  if args.test then
    { exitCode := if run_tests net then 0 else 1,
      posted := tests.flatMap (fun s => (runScenario net s).posted),
      displayedQuestionId := none }
  else
    match args.explanation with
    | none => { exitCode := 1, posted := [], displayedQuestionId := none }
    | some expl =>
        if expl = "" then
          { exitCode := 1, posted := [], displayedQuestionId := none }
        else
          let post_number : Int := if args.reply then 2 else 1
          let question_id := pyDictGet SEEDED_TOPICS args.topic ("topic_" ++ toString args.topic)
          let sr := send_webhook net expl args.topic post_number "post" "post_edited" none
          { exitCode := 0, posted := sr.posted, displayedQuestionId := some question_id }

example : hexString (sha256Bytes (strBytes "")) =
    "e3b0c44298fc1c149afbf4c8996fb92427ae41e4649b934ca495991b7852b855" := by decide

example : hexString (sha256Bytes (strBytes "abc")) =
    "ba7816bf8f01cfea414140de5dae2223b00361a396177a9cb410ff61f20015ad" := by decide

example : hexString (hmacSha256 (strBytes "key")
      (strBytes "The quick brown fox jumps over the lazy dog")) =
    "f7bc83f430538424b13298e6aa6fb143ef4d59a14946175997479dbc2d1a3cd8" := by decide

/-- Whatever the transport outcome, send_webhook attempted exactly the one
request it was handed. -/
theorem handleOutcome_posted (req : Request) (o : NetOutcome) :
    (handleOutcome req o).posted = [req] := by
  cases o with
  | response code txt => cases txt <;> rfl
  | connectionError => rfl
  | otherException msg => rfl

/-- send_webhook posts exactly the request built from its arguments. -/
theorem send_webhook_posted (net : Request → NetOutcome) (e : String) (t p : Int)
    (et en : String) (cs : Option String) :
    (send_webhook net e t p et en cs).posted = [buildRequest e t p et en cs] :=
  handleOutcome_posted _ _

/-- run_tests returns true exactly when every scenario of the table passes. -/
theorem run_tests_true_iff (net : Request → NetOutcome) :
    run_tests net = true ↔ ∀ s ∈ tests, scenarioPasses net s = true := by
  unfold run_tests
  rw [beq_iff_eq, ← List.length_map tests (scenarioPasses net), List.count_eq_length]
  constructor
  · intro h s hs
    exact (h _ (List.mem_map_of_mem _ hs)).symm
  · intro h b hb
    obtain ⟨s, hs, rfl⟩ := List.mem_map.mp hb
    exact (h s hs).symm

/-- The pass flag of one scenario, characterized by status equality and the
optional case-insensitive substring check. -/
theorem scenarioPasses_iff (net : Request → NetOutcome) (s : Scenario) :
    scenarioPasses net s = true ↔
      (runScenario net s).result.status = s.expected_status ∧
      ∀ sub, s.expected_contains = some sub →
        strContains (asciiLower (dumpJVal (runScenario net s).result.body))
          (asciiLower sub) = true := by
  unfold scenarioPasses
  cases hc : s.expected_contains with
  | none => simp [hc]
  | some sub => simp [hc]

/-- The header list of the built request, with the signature field spelled out. -/
theorem buildRequest_headers (e : String) (t p : Int) (et en : String) (cs : Option String) :
    (buildRequest e t p et en cs).headers =
      [("Content-Type", "application/json"),
       ("X-Discourse-Event-Type", et),
       ("X-Discourse-Event", en),
       ("X-Discourse-Event-Signature",
         pyOrStr cs (compute_signature (dumpJVal (buildPayload e t p)) WEBHOOK_SECRET)),
       ("X-Discourse-Instance", "https://forum.openhamprep.com")] := rfl

/-- The body of the built request is the serialized payload. -/
theorem buildRequest_body (e : String) (t p : Int) (et en : String) (cs : Option String) :
    (buildRequest e t p et en cs).body = dumpJVal (buildPayload e t p) := rfl

/-- C1: in every call of send_webhook with no override signature, the request
posted is the built request, whose X-Discourse-Event-Signature header equals
compute_signature applied to that same request body field — the exact
serialized string transmitted, with no re-serialization in between. -/
theorem sig_header_signs_exact_body (net : Request → NetOutcome) (e : String)
    (t p : Int) (et en : String) :
    (send_webhook net e t p et en none).posted = [buildRequest e t p et en none] ∧
    ("X-Discourse-Event-Signature",
        compute_signature (buildRequest e t p et en none).body WEBHOOK_SECRET) ∈
      (buildRequest e t p et en none).headers := by
  refine ⟨send_webhook_posted net e t p et en none, ?_⟩
  rw [buildRequest_headers, buildRequest_body]
  exact List.mem_cons_of_mem _ (List.mem_cons_of_mem _ (List.mem_cons_of_mem _
    (List.mem_cons_self _ _)))

/-- Every value of hexDigit is one of the sixteen lowercase hex characters. -/
theorem hexDigit_mem (n : Nat) : hexDigit n ∈ hexCharList := by
  have h : n % 16 < 16 := Nat.mod_lt _ (by norm_num)
  unfold hexDigit
  generalize hk : n % 16 = k
  rw [hk] at h
  interval_cases k <;> decide

/-- The hex encoding of a byte list has two characters per byte. -/
theorem length_flatMap_byteHexChars (bs : List Nat) :
    (bs.flatMap byteHexChars).length = 2 * bs.length := by
  induction bs with
  | nil => rfl
  | cons b rest ih =>
      simp only [List.flatMap_cons, List.length_append, List.length_cons, ih, byteHexChars,
        List.length_nil]
      omega

/-- The SHA-256 digest has 32 bytes. -/
theorem sha256Bytes_length (msg : List Nat) : (sha256Bytes msg).length = 32 := by
  simp [sha256Bytes, wordBytes]

/-- The HMAC-SHA256 digest has 32 bytes. -/
theorem hmacSha256_length (key msg : List Nat) : (hmacSha256 key msg).length = 32 :=
  sha256Bytes_length _

/-- C2: for every payload and secret, compute_signature is the string sha256=
followed by the 64 lowercase hexadecimal characters of the HMAC-SHA256 digest
of the payload keyed by the secret. Determinism, absence of side effects and
success on all string inputs are inherent: compute_signature is a total pure
Lean function. -/
theorem compute_signature_format (p s : String) :
    (compute_signature p s).data
      = "sha256=".data ++ (hexString (hmacSha256 (strBytes s) (strBytes p))).data ∧
    (hexString (hmacSha256 (strBytes s) (strBytes p))).data.length = 64 ∧
    ∀ c ∈ (hexString (hmacSha256 (strBytes s) (strBytes p))).data, c ∈ hexCharList := by
  refine ⟨?_, ?_, ?_⟩
  · exact String.data_append _ _
  · have h : (hexString (hmacSha256 (strBytes s) (strBytes p))).data
        = (hmacSha256 (strBytes s) (strBytes p)).flatMap byteHexChars := rfl
    rw [h, length_flatMap_byteHexChars, hmacSha256_length]
  · intro c hc
    have hc2 : c ∈ (hmacSha256 (strBytes s) (strBytes p)).flatMap byteHexChars := hc
    rw [List.mem_flatMap] at hc2
    obtain ⟨b, _, hb⟩ := hc2
    simp only [byteHexChars, List.mem_cons, List.not_mem_nil, or_false] at hb
    rcases hb with h | h <;> subst h <;> exact hexDigit_mem _

/-- C3: send_webhook never raises and always returns the uniform result shape:
status 0 with the fixed operator guidance on ConnectionError, status 0 with the
string representation of any other exception, and on success the literal HTTP
status code with the parsed JSON body, the empty object when the response text
is empty. The fifth case is the body whose JSON parse raises: the same generic
handler catches it and returns status 0 with that error text. Totality of the
Lean function is the never-raises half of the claim. -/
theorem send_webhook_result_shape (net : Request → NetOutcome) (e : String)
    (t p : Int) (et en : String) (cs : Option String) :
    (net (buildRequest e t p et en cs) = NetOutcome.connectionError →
      (send_webhook net e t p et en cs).result =
        ⟨0, errorBody "Cannot connect. Is Supabase running? Try: npm run supabase:functions"⟩) ∧
    (∀ msg, net (buildRequest e t p et en cs) = NetOutcome.otherException msg →
      (send_webhook net e t p et en cs).result = ⟨0, errorBody msg⟩) ∧
    (∀ code, net (buildRequest e t p et en cs) = NetOutcome.response code HttpText.empty →
      (send_webhook net e t p et en cs).result = ⟨code, JVal.jobj []⟩) ∧
    (∀ code j, net (buildRequest e t p et en cs)
        = NetOutcome.response code (HttpText.jsonText j) →
      (send_webhook net e t p et en cs).result = ⟨code, j⟩) ∧
    (∀ code msg, net (buildRequest e t p et en cs)
        = NetOutcome.response code (HttpText.invalidJson msg) →
      (send_webhook net e t p et en cs).result = ⟨0, errorBody msg⟩) := by
  refine ⟨fun h => ?_, fun msg h => ?_, fun code h => ?_, fun code j h => ?_,
    fun code msg h => ?_⟩ <;>
    simp [send_webhook, h, handleOutcome]

/-- Witness for the shape theorem at a concrete refused connection. -/
theorem send_webhook_result_shape_witness :
    (send_webhook (fun _ => NetOutcome.connectionError) "x" 1 1 "post" "post_edited"
        none).result =
      ⟨0, errorBody "Cannot connect. Is Supabase running? Try: npm run supabase:functions"⟩ :=
  (send_webhook_result_shape (fun _ => NetOutcome.connectionError) "x" 1 1 "post"
    "post_edited" none).1 rfl

/-- C4: run_tests returns true iff every scenario of the fixed table passes,
and a scenario passes iff the returned status equals the expected status
exactly and, when an expected substring is specified, that substring occurs
case-insensitively in the serialized response body. -/
theorem run_tests_pass_criterion (net : Request → NetOutcome) :
    run_tests net = true ↔
      ∀ s ∈ tests,
        (runScenario net s).result.status = s.expected_status ∧
        ∀ sub, s.expected_contains = some sub →
          strContains (asciiLower (dumpJVal (runScenario net s).result.body))
            (asciiLower sub) = true := by
  rw [run_tests_true_iff]
  exact forall_congr' fun s => imp_congr_right fun _ => scenarioPasses_iff net s

/-- C5: with the test flag the process exits 0 exactly when every scenario
passed and 1 otherwise; when no explanation text is supplied — the argument is
missing or empty, the two falsy cases of the script guard — it exits 1 having
attempted no network call; on the single-send path, reached exactly by a
nonempty explanation, it always exits 0, whatever the transport oracle did. -/
theorem main_exit_codes (net : Request → NetOutcome) (args : Args) :
    (args.test = true →
      ((main net args).exitCode = 0 ↔ ∀ s ∈ tests, scenarioPasses net s = true) ∧
      ((main net args).exitCode = 0 ∨ (main net args).exitCode = 1)) ∧
    (args.test = false →
      (args.explanation = none ∨ args.explanation = some "") →
      (main net args).exitCode = 1 ∧ (main net args).posted = []) ∧
    (args.test = false → ∀ e, args.explanation = some e → e ≠ "" →
      (main net args).exitCode = 0) := by
  refine ⟨fun ht => ⟨?_, ?_⟩, fun ht he => ?_, fun ht e he hne => ?_⟩
  · rw [← run_tests_true_iff]
    cases hrt : run_tests net with
    | true => simp [main, ht, hrt]
    | false => simp [main, ht, hrt]
  · cases hrt : run_tests net with
    | true => left; simp [main, ht, hrt]
    | false => right; simp [main, ht, hrt]
  · rcases he with he | he <;> constructor <;> simp [main, ht, he]
  · simp [main, ht, he, hne]

/-- Witness for the exit-code theorem: missing explanation exits 1 with no POST. -/
theorem main_exit_codes_witness :
    (main (fun _ => NetOutcome.connectionError) ⟨none, 1, false, false, false⟩).exitCode = 1 ∧
    (main (fun _ => NetOutcome.connectionError) ⟨none, 1, false, false, false⟩).posted = [] :=
  (main_exit_codes (fun _ => NetOutcome.connectionError)
    ⟨none, 1, false, false, false⟩).2.1 rfl (Or.inl rfl)

/-- C6 counterexample: at a concrete call the dispatcher request carries five
headers, so the claimed count of four required headers is false. -/
theorem dispatcher_header_count_not_four :
    (buildRequest "test" 1 1 "post" "post_edited" none).headers.length = 5 ∧
    (buildRequest "test" 1 1 "post" "post_edited" none).headers.length ≠ 4 := by
  constructor
  · rfl
  · intro h
    rw [show (buildRequest "test" 1 1 "post" "post_edited" none).headers.length = 5 from rfl] at h
    exact absurd h (by norm_num)

/-- C6 amended: on every invocation the dispatcher sets exactly the five
required headers Content-Type, event-type, event-name, event-signature and the
source-instance identifier, and performs exactly one POST — the singleton
posted list, hence no retries — to the fixed URL with timeout 30. -/
theorem dispatcher_five_headers_single_post (net : Request → NetOutcome) (e : String)
    (t p : Int) (et en : String) (cs : Option String) :
    (send_webhook net e t p et en cs).posted = [buildRequest e t p et en cs] ∧
    (buildRequest e t p et en cs).headers.map Prod.fst =
      ["Content-Type", "X-Discourse-Event-Type", "X-Discourse-Event",
       "X-Discourse-Event-Signature", "X-Discourse-Instance"] ∧
    (buildRequest e t p et en cs).url = FUNCTION_URL ∧
    (buildRequest e t p et en cs).timeout = 30 :=
  ⟨send_webhook_posted net e t p et en cs, rfl, rfl, rfl⟩

/-- C7: building the payload twice from identical inputs serializes to
byte-identical output (in the embedding the builder and serializer are pure
functions, so the first conjunct holds definitionally), the field order is the
fixed insertion order spelled out in the second conjunct, and the explanation,
including the empty string, is embedded verbatim and unvalidated between the
two fixed template halves. -/
theorem payload_builder_deterministic_verbatim (e : String) (t p : Int) :
    dumpJVal (buildPayload e t p) = dumpJVal (buildPayload e t p) ∧
    buildPayload e t p = JVal.jobj [("post", JVal.jobj
      [("id", JVal.jnum 100),
       ("topic_id", JVal.jnum t),
       ("post_number", JVal.jnum p),
       ("raw", JVal.jstr (rawContent e)),
       ("cooked", JVal.jstr "<p>HTML content</p>"),
       ("username", JVal.jstr "test_user"),
       ("created_at", JVal.jstr "2024-01-01T00:00:00Z"),
       ("updated_at", JVal.jstr "2024-01-02T00:00:00Z")])] ∧
    rawContent e = rawTemplateHead ++ e ++ rawTemplateTail ∧
    rawContent "" = rawTemplateHead ++ rawTemplateTail := by
  refine ⟨rfl, rfl, rfl, ?_⟩
  rw [rawContent, String.append_empty]

/-- C8: the test table has exactly six scenarios in this order: the invalid
signature override sha256=invalid expecting 401 with Invalid in the body, the
three filtering scenarios (event type topic, event name post_created, post
number 2) each expecting 200 with ignored in the body, and the two valid edits
to topics 1 and 2 each expecting 200 with no body assertion. -/
theorem test_table_contents :
    tests.length = 6 ∧
    tests[0]? = some ⟨"Invalid signature rejected", "test", 1, 1, "post", "post_edited",
      some "sha256=invalid", 401, some "Invalid"⟩ ∧
    tests[1]? = some ⟨"Non-post event ignored", "test", 1, 1, "topic", "post_edited",
      none, 200, some "ignored"⟩ ∧
    tests[2]? = some ⟨"post_created ignored", "test", 1, 1, "post", "post_created",
      none, 200, some "ignored"⟩ ∧
    tests[3]? = some ⟨"Reply post ignored", "test", 1, 2, "post", "post_edited",
      none, 200, some "ignored"⟩ ∧
    tests[4]? = some ⟨"Valid update to T1A01",
      "UPDATED: This is a new test explanation from the webhook!", 1, 1, "post",
      "post_edited", none, 200, none⟩ ∧
    tests[5]? = some ⟨"Valid update to T1A02", "T1A02 updated explanation!", 2, 1, "post",
      "post_edited", none, 200, none⟩ :=
  ⟨rfl, rfl, rfl, rfl, rfl, rfl, rfl⟩

/-- C9: an empty override signature is falsy in the expression
custom_signature or compute_signature(...), so the request sent with an empty
override is identical to the request sent with no override and carries the
computed signature; the signature header carries the override string itself
exactly when it is nonempty. -/
theorem empty_override_falls_back (e : String) (t p : Int) (et en : String) :
    buildRequest e t p et en (some "") = buildRequest e t p et en none ∧
    ∀ s : String,
      (buildRequest e t p et en (some s)).headers.lookup "X-Discourse-Event-Signature" =
        some (if s = "" then compute_signature (dumpJVal (buildPayload e t p)) WEBHOOK_SECRET
              else s) :=
  ⟨rfl, fun _ => rfl⟩

/-- C10: for a topic id outside the seeded table the single-send path — reached
by a nonempty explanation, the truthy case of the script guard — does not fail:
it exits 0, displays the synthesized identifier topic_<id>, and still
dispatches the webhook whose payload carries that topic id. -/
theorem unknown_topic_dispatches (net : Request → NetOutcome) (e : String) (t : Int)
    (reply verbose : Bool) (h0 : e ≠ "") (h1 : t ≠ 1) (h2 : t ≠ 2) (h3 : t ≠ 3) :
    (main net ⟨some e, t, reply, false, verbose⟩).exitCode = 0 ∧
    (main net ⟨some e, t, reply, false, verbose⟩).displayedQuestionId =
      some ("topic_" ++ toString t) ∧
    (main net ⟨some e, t, reply, false, verbose⟩).posted =
      [buildRequest e t (if reply then 2 else 1) "post" "post_edited" none] := by
  have b1 : (t == (1 : Int)) = false := beq_eq_false_iff_ne.mpr h1
  have b2 : (t == (2 : Int)) = false := beq_eq_false_iff_ne.mpr h2
  have b3 : (t == (3 : Int)) = false := beq_eq_false_iff_ne.mpr h3
  refine ⟨?_, ?_, ?_⟩ <;>
    simp [main, h0, pyDictGet, SEEDED_TOPICS, List.lookup, b1, b2, b3, send_webhook_posted]

/-- Witness for the unknown-topic theorem at topic id 7. -/
theorem unknown_topic_dispatches_witness :
    (main (fun _ => NetOutcome.connectionError)
        ⟨some "x", 7, false, false, false⟩).exitCode = 0 ∧
    (main (fun _ => NetOutcome.connectionError)
        ⟨some "x", 7, false, false, false⟩).displayedQuestionId =
      some ("topic_" ++ toString (7 : Int)) ∧
    (main (fun _ => NetOutcome.connectionError)
        ⟨some "x", 7, false, false, false⟩).posted =
      [buildRequest "x" 7 (if false then 2 else 1) "post" "post_edited" none] :=
  unknown_topic_dispatches (fun _ => NetOutcome.connectionError) "x" 7 false false
    (by decide) (by decide) (by decide) (by decide)

end OpenHamPrep
